import Mathlib

/-!
Shallow embedding of the Palette Picks HTTP API (an Express app over two
tables, `projects` and `palettes`, accessed through a knex query builder).

Route handlers from the source are translated as pure functions over an
explicit database state.  A request body is a record of optional fields
(`hasOwnProperty` in the source becomes `Option.isSome` here); the path
`:id` parameter is modelled as an `Int` (the source converts it with
`Number`).  A datastore failure (the query-builder call throwing) is
modelled by a `failure` field on the database state: when it is `some e`,
every query throws `e`, which the handlers catch.

Handlers not present in the source (the `GET /palettes` color filter and
the two PATCH routes exist only in `app.test.js`) are modelled from the
spec and marked as such in their doc comments.
-/

/-- A row of the `projects` table. -/
structure Project where
  id : Int
  name : String
  deriving DecidableEq, Repr

/-- A row of the `palettes` table. -/
structure Palette where
  id : Int
  name : String
  color_one : String
  color_two : String
  color_three : String
  color_four : String
  color_five : String
  projects_id : Int
  deriving DecidableEq, Repr

/-- The JSON body of a `POST /projects/:id/palettes` request: each of the
seven properties the handler's validation loop looks for is either present
(`some`) or absent (`none`), mirroring `hasOwnProperty`. -/
structure PaletteBody where
  name : Option String
  color_one : Option String
  color_two : Option String
  color_three : Option String
  color_four : Option String
  color_five : Option String
  projects_id : Option Int
  deriving DecidableEq, Repr

/-- The JSON body of a `POST /projects` request. -/
structure ProjectBody where
  name : Option String
  deriving DecidableEq, Repr

/-- Database state: the two tables, the next generated ids, and an injected
fault (`failure = some e` makes every query-builder call throw `e`). -/
structure DB where
  projects : List Project
  palettes : List Palette
  nextProjectId : Int
  nextPaletteId : Int
  failure : Option String
  deriving DecidableEq, Repr

/-- `database('projects').select()` -/
def DB.selectProjects (db : DB) : Except String (List Project) :=
  match db.failure with
  | some e => .error e
  | none => .ok db.projects

/-- `database('palettes').select()` -/
def DB.selectPalettes (db : DB) : Except String (List Palette) :=
  match db.failure with
  | some e => .error e
  | none => .ok db.palettes

/-- `database('palettes').where('id', id)` -/
def DB.wherePaletteId (db : DB) (i : Int) : Except String (List Palette) :=
  match db.failure with
  | some e => .error e
  | none => .ok (db.palettes.filter (fun p => p.id == i))

/-- `database('projects').where('id', id)` -/
def DB.whereProjectId (db : DB) (i : Int) : Except String (List Project) :=
  match db.failure with
  | some e => .error e
  | none => .ok (db.projects.filter (fun p => p.id == i))

/-- `database('palettes').insert(palette, 'id')`: appends the row with the
next generated id and returns that id (the source reads `id[0]` from the
returned array). -/
def DB.insertPalette (db : DB) (name c1 c2 c3 c4 c5 : String) (pid : Int) :
    Except String (Int × DB) :=
  match db.failure with
  | some e => .error e
  | none =>
    .ok (db.nextPaletteId,
      { db with
          palettes := db.palettes ++
            [⟨db.nextPaletteId, name, c1, c2, c3, c4, c5, pid⟩],
          nextPaletteId := db.nextPaletteId + 1 })

/-- `database('projects').insert(project, 'id')` -/
def DB.insertProject (db : DB) (name : String) : Except String (Int × DB) :=
  match db.failure with
  | some e => .error e
  | none =>
    .ok (db.nextProjectId,
      { db with
          projects := db.projects ++ [⟨db.nextProjectId, name⟩],
          nextProjectId := db.nextProjectId + 1 })

/-- `database('palettes').where('id', id).del()` -/
def DB.delPaletteById (db : DB) (i : Int) : Except String DB :=
  match db.failure with
  | some e => .error e
  | none => .ok { db with palettes := db.palettes.filter (fun p => !(p.id == i)) }

/-- `database('projects').update(...)` restricted to the name column, as
issued by the PATCH handler. -/
def DB.updateProjectName (db : DB) (i : Int) (n : String) : Except String DB :=
  match db.failure with
  | some e => .error e
  | none =>
    .ok { db with
            projects := db.projects.map
              (fun p => if p.id == i then { p with name := n } else p) }

/-- `database('palettes').update(...)` restricted to the name column. -/
def DB.updatePaletteName (db : DB) (i : Int) (n : String) : Except String DB :=
  match db.failure with
  | some e => .error e
  | none =>
    .ok { db with
            palettes := db.palettes.map
              (fun p => if p.id == i then { p with name := n } else p) }

/-- An HTTP response body, one constructor per JSON shape the handlers
produce.  `errorMsg` is the `error`-keyed object, `errorMsgCap` the
capital-E `Error`-keyed one some routes use. -/
inductive RespBody where
  | errorMsg (msg : String)
  | errorMsgCap (msg : String)
  | idBody (i : Int)
  | text (s : String)
  | singlePalette (p : Palette)
  | singleProject (p : Project)
  | palettes (ps : List Palette)
  | projects (ps : List Project)
  | errObj (e : String)
  deriving DecidableEq, Repr

/-- An HTTP response: status code and body. -/
structure Resp where
  status : Nat
  body : RespBody
  deriving DecidableEq, Repr

/-- `Could not find palette with an id of <id>` -/
def paletteNotFoundMsg (i : Int) : String :=
  s!"Could not find palette with an id of {i}"

/-- `Could not find project with an id of <id>` -/
def projectNotFoundMsg (i : Int) : String :=
  s!"Could not find project with an id of {i}"

/-- `Palette with id <id> has been removed successfully` -/
def paletteRemovedMsg (i : Int) : String :=
  s!"Palette with id {i} has been removed successfully"

/-- The fixed 422 message of `POST /projects` (source line 63). -/
def projectMissingNameMsg : String :=
  "Expected body format \x7bname: <String>\x7d. You\x27re missing the required name property"

/-- The 422 message of `POST /projects/:id/palettes` with the missing
property name interpolated (source line 49). -/
def paletteMissingMsg (f : String) : String :=
  "Expected body format is: \x7b name: <String>, color_one: <String>, color_two: <String>, color_three: <String>, color_four: <String>, color_five: <String> \x7d. You\x27re missing the required \"" ++ f ++ "\" property."

/-- The validation loop's enumeration order of required properties
(source lines 44-45). -/
def requiredPaletteFields : List String :=
  ["name", "color_one", "color_two", "color_three", "color_four",
   "color_five", "projects_id"]

/-- `palette.hasOwnProperty(f)` for the seven checked property names. -/
def hasField (p : PaletteBody) : String → Bool
  | "name" => p.name.isSome
  | "color_one" => p.color_one.isSome
  | "color_two" => p.color_two.isSome
  | "color_three" => p.color_three.isSome
  | "color_four" => p.color_four.isSome
  | "color_five" => p.color_five.isSome
  | "projects_id" => p.projects_id.isSome
  | _ => false

/-- The first required property missing from the palette object, in the
loop's enumeration order; `none` when all are present. -/
def firstMissing (p : PaletteBody) : Option String :=
  requiredPaletteFields.find? (fun f => !hasField p f)

/-- Handler of `GET /api/v1/projects` (source lines 16-23). -/
def getProjects (db : DB) : Resp :=
  match db.selectProjects with
  | .ok ps => ⟨200, .projects ps⟩
  | .error e => ⟨500, .errObj e⟩

/-- Handler of `GET /api/v1/palettes/:id` (source lines 25-38): responds
with `palettes[0]` when the `where` result is nonempty, else 404. -/
def getPaletteById (db : DB) (i : Int) : Resp :=
  match db.wherePaletteId i with
  | .error e => ⟨500, .errObj e⟩
  | .ok found =>
    match found with
    | p :: _ => ⟨200, .singlePalette p⟩
    | [] => ⟨404, .errorMsg (paletteNotFoundMsg i)⟩

/-- Handler of `POST /api/v1/projects/:id/palettes` (source lines 40-58):
spreads the body, overwrites `projects_id` with the numeric path parameter,
validates the seven properties in order, then inserts.  (After validation
succeeds every field is `some`; the `getD` defaults are unreachable.) -/
def createPalette (pathId : Int) (body : PaletteBody) (db : DB) : Resp × DB :=
  let palette : PaletteBody := { body with projects_id := some pathId }
  match firstMissing palette with
  | some f => (⟨422, .errorMsg (paletteMissingMsg f)⟩, db)
  | none =>
    match db.insertPalette (palette.name.getD "") (palette.color_one.getD "")
        (palette.color_two.getD "") (palette.color_three.getD "")
        (palette.color_four.getD "") (palette.color_five.getD "")
        (palette.projects_id.getD 0) with
    | .error e => (⟨500, .errObj e⟩, db)
    | .ok (i, db2) => (⟨201, .idBody i⟩, db2)

/-- `!project.name`: true when the property is absent or its value is
falsy (the empty string). -/
def isFalsy : Option String → Bool
  | none => true
  | some s => s == ""

/-- Handler of `POST /api/v1/projects` (source lines 60-71). -/
def createProject (db : DB) (body : ProjectBody) : Resp × DB :=
  if isFalsy body.name then
    (⟨422, .errorMsg projectMissingNameMsg⟩, db)
  else
    match db.insertProject (body.name.getD "") with
    | .error e => (⟨500, .errObj e⟩, db)
    | .ok (i, db2) => (⟨201, .idBody i⟩, db2)

/-- Handler of `DELETE /api/v1/palettes/:id` (source lines 73-88): a
`where` lookup, then the delete when the row was found. -/
def deletePalette (db : DB) (i : Int) : Resp × DB :=
  match db.wherePaletteId i with
  | .error e => (⟨500, .errObj e⟩, db)
  | .ok found =>
    if found.length != 0 then
      match db.delPaletteById i with
      | .error e => (⟨500, .errObj e⟩, db)
      | .ok db2 => (⟨200, .text (paletteRemovedMsg i)⟩, db2)
    else
      (⟨404, .errorMsg (paletteNotFoundMsg i)⟩, db)

/-- The fixed 422 message of the malformed color query
(app.test.js line 297). -/
def colorQueryErrMsg : String :=
  "Expected query format is: \"?color=\" + <6 character hex code>.  Do not include \"#\" before the hex characters."

/-- The fixed 422 message of the PATCH handlers (app.test.js line 199). -/
def patchErrMsg : String :=
  "Expected body format is: \x7b name: <String> \x7d. You must send only the required \"name\" property."

/-- A hexadecimal digit. -/
def isHexChar (c : Char) : Bool :=
  c.isDigit || "abcdefABCDEF".toList.contains c

/-- Exactly 6 hexadecimal characters, no leading `#`. -/
def isValidColorQuery (s : String) : Bool :=
  s.length == 6 && s.toList.all isHexChar

/-- `frag` occurs as a contiguous run inside the scanned list: at each
offset the fragment is checked as a prefix of the remaining characters. -/
def listContainsRun : List Char → List Char → Bool
  | frag, [] => frag.isEmpty
  | frag, c :: t => frag.isPrefixOf (c :: t) || listContainsRun frag t

/-- Case-insensitive substring containment (`s.toLowerCase().includes(frag.toLowerCase())`). -/
def strContainsCI (s frag : String) : Bool :=
  listContainsRun frag.toLower.toList s.toLower.toList

/-- Some of the five color fields contains the fragment, case-insensitively. -/
def matchesColor (frag : String) (p : Palette) : Bool :=
  strContainsCI p.color_one frag || strContainsCI p.color_two frag ||
  strContainsCI p.color_three frag || strContainsCI p.color_four frag ||
  strContainsCI p.color_five frag

/-- Modelled from the spec: the `GET /api/v1/palettes` handler is absent
from src/ (only app.test.js exercises it).  Per the spec: no `color` query
parameter returns all palettes as `\x7bpalettes\x7d` with 200; a well-formed
6-hex-character fragment filters palettes where any of the five color fields
case-insensitively contains it; a malformed fragment yields 422 with the
fixed message; a datastore failure yields 500. -/
def getPalettes (colorQuery : Option String) (db : DB) : Resp :=
  match colorQuery with
  | none =>
    match db.selectPalettes with
    | .ok ps => ⟨200, .palettes ps⟩
    | .error e => ⟨500, .errObj e⟩
  | some q =>
    if isValidColorQuery q then
      match db.selectPalettes with
      | .ok ps => ⟨200, .palettes (ps.filter (matchesColor q))⟩
      | .error e => ⟨500, .errObj e⟩
    else
      ⟨422, .errorMsg colorQueryErrMsg⟩

/-- A PATCH body: an association list of JSON properties (string-valued). -/
def PatchBody : Type := List (String × String)

/-- The body consists of exactly the one required `name` property. -/
def validPatchBody : List (String × String) → Bool
  | [(k, _)] => k == "name"
  | _ => false

/-- Modelled from the spec: the `PATCH /api/v1/projects/:id` handler is
absent from src/ (only app.test.js exercises it).  Per the spec: a body
not consisting of exactly `\x7bname\x7d` yields 422 with the fixed message;
a missing target id yields 404; otherwise the name column is updated and
the handler responds 200 with `\x7bid\x7d`; a datastore failure yields 500. -/
def patchProjectName (db : DB) (i : Int) (body : List (String × String)) :
    Resp × DB :=
  if validPatchBody body then
    match db.whereProjectId i with
    | .error e => (⟨500, .errObj e⟩, db)
    | .ok found =>
      if found.length != 0 then
        match db.updateProjectName i ((body.headD ("name", "")).2) with
        | .error e => (⟨500, .errObj e⟩, db)
        | .ok db2 => (⟨200, .idBody i⟩, db2)
      else
        (⟨404, .errorMsg (projectNotFoundMsg i)⟩, db)
  else
    (⟨422, .errorMsg patchErrMsg⟩, db)

/-- Modelled from the spec: the `PATCH /api/v1/palettes/:id` handler is
absent from src/ (only app.test.js exercises it).  Same contract as
`patchProjectName` with palette-flavored messages. -/
def patchPaletteName (db : DB) (i : Int) (body : List (String × String)) :
    Resp × DB :=
  if validPatchBody body then
    match db.wherePaletteId i with
    | .error e => (⟨500, .errObj e⟩, db)
    | .ok found =>
      if found.length != 0 then
        match db.updatePaletteName i ((body.headD ("name", "")).2) with
        | .error e => (⟨500, .errObj e⟩, db)
        | .ok db2 => (⟨200, .idBody i⟩, db2)
      else
        (⟨404, .errorMsg (paletteNotFoundMsg i)⟩, db)
  else
    (⟨422, .errorMsg patchErrMsg⟩, db)

/-- A concrete seeded palette row used by the witnesses. -/
def samplePalette : Palette :=
  ⟨1, "warm", "#111111", "#222222", "#333333", "#444444", "#FFFFFF", 1⟩

/-- A concrete seeded database used by the witnesses. -/
def sampleDB : DB :=
  ⟨[⟨1, "Sample Project"⟩], [samplePalette], 2, 2, none⟩

/-- `sampleDB` with an injected datastore fault. -/
def sampleFailDB : DB :=
  { sampleDB with failure := some "connection refused" }

/-- A complete palette body (all six body-required properties present,
no `projects_id`). -/
def fullPaletteBody : PaletteBody :=
  ⟨some "new palette", some "#111111", some "#222222", some "#333333",
   some "#444444", some "#555555", none⟩

/-- `No project found with an id of <id>` (capital-E `Error` key). -/
def projectNoneFoundMsg (i : Int) : String :=
  s!"No project found with an id of {i}"

/-- `No palettes could be found matching a project with an id of <id>`
(capital-E `Error` key). -/
def noPalettesForProjectMsg (i : Int) : String :=
  s!"No palettes could be found matching a project with an id of {i}"

/-- `Project with id <id> has been removed successfully` -/
def projectRemovedMsg (i : Int) : String :=
  s!"Project with id {i} has been removed successfully"

/-- `database('palettes').where('projects_id', id)` -/
def DB.wherePaletteProjectsId (db : DB) (i : Int) : Except String (List Palette) :=
  match db.failure with
  | some e => .error e
  | none => .ok (db.palettes.filter (fun p => p.projects_id == i))

/-- `database('projects').where('id', id).del()` -/
def DB.delProjectById (db : DB) (i : Int) : Except String DB :=
  match db.failure with
  | some e => .error e
  | none => .ok { db with projects := db.projects.filter (fun p => !(p.id == i)) }

/-- Modelled from the spec: the `GET /api/v1/projects/:id` handler is
absent from src/ (only app.test.js exercises it).  Per the spec: responds
200 with the single project object when the id exists, else 404 with the
capital-E `\x7bError\x7d` body; a datastore failure yields 500. -/
def getProjectById (db : DB) (i : Int) : Resp :=
  match db.whereProjectId i with
  | .error e => ⟨500, .errObj e⟩
  | .ok found =>
    match found with
    | p :: _ => ⟨200, .singleProject p⟩
    | [] => ⟨404, .errorMsgCap (projectNoneFoundMsg i)⟩

/-- Modelled from the spec: the `GET /api/v1/projects/:id/palettes` handler
is absent from src/ (only app.test.js exercises it).  Per the spec:
responds 200 with `\x7bpalettes\x7d` for the project when any exist, else
404 with the capital-E `\x7bError\x7d` body; a datastore failure yields
500. -/
def getProjectPalettes (db : DB) (i : Int) : Resp :=
  match db.wherePaletteProjectsId i with
  | .error e => ⟨500, .errObj e⟩
  | .ok found =>
    if found.length != 0 then ⟨200, .palettes found⟩
    else ⟨404, .errorMsgCap (noPalettesForProjectMsg i)⟩

/-- Modelled from the spec: the `DELETE /api/v1/projects/:id` handler is
absent from src/ (only app.test.js exercises it).  Same contract as the
source's palette DELETE, project-flavored: found → delete, 200 with the
plain-text removal message; not found → 404 with `\x7berror\x7d`; a
datastore failure yields 500. -/
def deleteProject (db : DB) (i : Int) : Resp × DB :=
  match db.whereProjectId i with
  | .error e => (⟨500, .errObj e⟩, db)
  | .ok found =>
    if found.length != 0 then
      match db.delProjectById i with
      | .error e => (⟨500, .errObj e⟩, db)
      | .ok db2 => (⟨200, .text (projectRemovedMsg i)⟩, db2)
    else
      (⟨404, .errorMsg (projectNotFoundMsg i)⟩, db)

/-- The six properties the request body itself must supply (`projects_id`
is injected from the path before validation). -/
def bodyRequiredFields : List String :=
  ["name", "color_one", "color_two", "color_three", "color_four", "color_five"]

/-- The 422-test body of app.test.js lines 120-127: all colors and a
`projects_id`, but no `name`. -/
def namelessPaletteBody : PaletteBody :=
  ⟨none, some "#111111", some "#222222", some "#333333", some "#444444",
   some "#555555", some 1⟩

/-- After the handler injects `projects_id`, the validation loop's search
over the seven properties coincides with a search over the six
body-required ones. -/
theorem firstMissing_after_inject (pathId : Int) (body : PaletteBody) :
    firstMissing { body with projects_id := some pathId } =
      bodyRequiredFields.find? (fun f => !hasField body f) := by
  rcases body with ⟨n, c1, c2, c3, c4, c5, pid⟩
  cases n <;> cases c1 <;> cases c2 <;> cases c3 <;> cases c4 <;> cases c5 <;> rfl

/-- The validation branch of the palette POST handler, as an equation. -/
theorem createPalette_eq_missing (pathId : Int) (body : PaletteBody)
    (db : DB) (f : String)
    (h : bodyRequiredFields.find? (fun x => !hasField body x) = some f) :
    createPalette pathId body db = (⟨422, .errorMsg (paletteMissingMsg f)⟩, db) := by
  simp only [createPalette, firstMissing_after_inject, h]

/-- The response of the validation branch alone. -/
theorem createPalette_resp_missing (pathId : Int) (body : PaletteBody)
    (db : DB) (f : String)
    (h : bodyRequiredFields.find? (fun x => !hasField body x) = some f) :
    (createPalette pathId body db).1 = ⟨422, .errorMsg (paletteMissingMsg f)⟩ := by
  rw [createPalette_eq_missing pathId body db f h]

/-- C1 (amended): a request body to POST /projects/:id/palettes that lacks
at least one of the body-required fields [name, color_one..color_five]
gets a 422 naming the first missing one in that order, and no insert is
issued.  (`projects_id`, though listed in the loop, is injected from the
path before validation and so is never the missing field.) -/
theorem post_palette_missing_field (pathId : Int) (body : PaletteBody)
    (db : DB) (f : String)
    (h : bodyRequiredFields.find? (fun x => !hasField body x) = some f) :
    createPalette pathId body db = (⟨422, .errorMsg (paletteMissingMsg f)⟩, db) :=
  createPalette_eq_missing pathId body db f h

/-- Witness for `post_palette_missing_field` at the test's concrete body. -/
theorem post_palette_missing_field_witness :
    createPalette 1 namelessPaletteBody sampleDB =
      (⟨422, .errorMsg (paletteMissingMsg "name")⟩, sampleDB) :=
  post_palette_missing_field 1 namelessPaletteBody sampleDB "name" (by decide)

/-- Counterexample to C1 as stated: this body lacks the required field
`projects_id` of the fixed enumeration, yet the handler responds 201 and
issues the insert, because `projects_id` is injected from the path before
validation. -/
theorem post_palette_missing_field_cex :
    hasField fullPaletteBody "projects_id" = false ∧
    (createPalette 1 fullPaletteBody sampleDB).1.status = 201 ∧
    (createPalette 1 fullPaletteBody sampleDB).2.palettes ≠ sampleDB.palettes := by
  decide

/-- C2: a body with all of name and color_one..color_five is inserted with
`projects_id` taken from the path parameter, and the handler responds 201
with the id returned by the insert. -/
theorem post_palette_success (pathId : Int) (body : PaletteBody) (db : DB)
    (n c1 c2 c3 c4 c5 : String)
    (hn : body.name = some n) (h1 : body.color_one = some c1)
    (h2 : body.color_two = some c2) (h3 : body.color_three = some c3)
    (h4 : body.color_four = some c4) (h5 : body.color_five = some c5)
    (hf : db.failure = none) :
    createPalette pathId body db =
      (⟨201, .idBody db.nextPaletteId⟩,
       { db with
           palettes := db.palettes ++
             [⟨db.nextPaletteId, n, c1, c2, c3, c4, c5, pathId⟩],
           nextPaletteId := db.nextPaletteId + 1 }) := by
  rcases body with ⟨bn, b1, b2, b3, b4, b5, bp⟩
  cases hn; cases h1; cases h2; cases h3; cases h4; cases h5
  rcases db with ⟨P, L, ni, np, fl⟩
  cases hf
  rfl

/-- Witness for `post_palette_success` at a concrete body and database. -/
theorem post_palette_success_witness :
    createPalette 1 fullPaletteBody sampleDB =
      (⟨201, .idBody sampleDB.nextPaletteId⟩,
       { sampleDB with
           palettes := sampleDB.palettes ++
             [⟨sampleDB.nextPaletteId, "new palette", "#111111", "#222222",
               "#333333", "#444444", "#555555", 1⟩],
           nextPaletteId := sampleDB.nextPaletteId + 1 }) :=
  post_palette_success 1 fullPaletteBody sampleDB
    "new palette" "#111111" "#222222" "#333333" "#444444" "#555555"
    rfl rfl rfl rfl rfl rfl rfl

set_option maxRecDepth 8192 in
/-- C10: `projects_id` is overwritten from the path before validation, so a
body-supplied `projects_id` never affects the handler's behaviour, and the
422 branch naming `projects_id` is unreachable. -/
theorem post_palette_projects_id_injected (pathId : Int) (body : PaletteBody)
    (db : DB) :
    (∀ x, createPalette pathId { body with projects_id := x } db =
        createPalette pathId body db) ∧
    (createPalette pathId body db).1 ≠
      ⟨422, .errorMsg (paletteMissingMsg "projects_id")⟩ := by
  constructor
  · intro x; rcases body; rfl
  · cases hfind : bodyRequiredFields.find? (fun x => !hasField body x) with
    | some f =>
      rw [createPalette_resp_missing pathId body db f hfind]
      have hmem := List.mem_of_find?_eq_some hfind
      simp only [bodyRequiredFields, List.mem_cons, List.mem_singleton,
        List.not_mem_nil, or_false] at hmem
      rcases hmem with rfl | rfl | rfl | rfl | rfl | rfl <;> decide
    | none =>
      simp only [createPalette, firstMissing_after_inject, hfind, Option.getD_some]
      cases hins : db.insertPalette (body.name.getD "") (body.color_one.getD "")
          (body.color_two.getD "") (body.color_three.getD "")
          (body.color_four.getD "") (body.color_five.getD "") pathId with
      | error e => simp
      | ok r =>
        rcases r with ⟨i2, db2⟩
        simp

/-- C3 (amended): POST /projects with a non-empty name inserts the row and
responds 201 with the id returned by the insert; with the name missing or
empty it responds 422 with the fixed message and performs no insert; on
datastore failure it responds 500.  (A present but empty name is falsy in
the source's `!project.name` check and gets the same 422.) -/
theorem post_project_contract :
    (∀ (db : DB) (n : String), db.failure = none → n ≠ "" →
      createProject db ⟨some n⟩ =
        (⟨201, .idBody db.nextProjectId⟩,
         { db with
             projects := db.projects ++ [⟨db.nextProjectId, n⟩],
             nextProjectId := db.nextProjectId + 1 }))
  ∧ (∀ (db : DB) (body : ProjectBody),
      body.name = none ∨ body.name = some "" →
      createProject db body = (⟨422, .errorMsg projectMissingNameMsg⟩, db))
  ∧ (∀ (db : DB) (n e : String), db.failure = some e → n ≠ "" →
      createProject db ⟨some n⟩ = (⟨500, .errObj e⟩, db)) := by
  refine ⟨?_, ?_, ?_⟩
  · intro db n hf hn
    have hb : (n == "") = false := beq_eq_false_iff_ne.mpr hn
    rcases db with ⟨P, L, ni, np, fl⟩
    cases hf
    simp [createProject, isFalsy, hb, DB.insertProject]
  · intro db body h
    rcases body with ⟨bn⟩
    rcases h with rfl | rfl <;> rfl
  · intro db n e hf hn
    have hb : (n == "") = false := beq_eq_false_iff_ne.mpr hn
    rcases db with ⟨P, L, ni, np, fl⟩
    cases hf
    simp [createProject, isFalsy, hb, DB.insertProject]

/-- Witness for `post_project_contract` at a concrete name and database. -/
theorem post_project_contract_witness :
    createProject sampleDB ⟨some "Test Project"⟩ =
      (⟨201, .idBody sampleDB.nextProjectId⟩,
       { sampleDB with
           projects := sampleDB.projects ++
             [⟨sampleDB.nextProjectId, "Test Project"⟩],
           nextProjectId := sampleDB.nextProjectId + 1 }) :=
  post_project_contract.1 sampleDB "Test Project" rfl (by decide)

/-- Counterexample to C3 as stated: a body containing the name property
with an empty-string value is rejected with 422 and no insert, because
`!project.name` treats the empty string as missing. -/
theorem post_project_cex :
    ((⟨some ""⟩ : ProjectBody)).name.isSome = true ∧
    createProject sampleDB ⟨some ""⟩ =
      (⟨422, .errorMsg projectMissingNameMsg⟩, sampleDB) :=
  ⟨rfl, rfl⟩

/-- C4: DELETE /palettes/:id deletes the matching row and responds 200 with
the plain-text removal message when the id is present; responds 404 with
the error body and leaves the table unchanged when it is absent. -/
theorem delete_palette_contract (db : DB) (i : Int) (hf : db.failure = none) :
    (db.palettes.filter (fun p => p.id == i) ≠ [] →
      deletePalette db i =
        (⟨200, .text (paletteRemovedMsg i)⟩,
         { db with palettes := db.palettes.filter (fun p => !(p.id == i)) }))
  ∧ (db.palettes.filter (fun p => p.id == i) = [] →
      deletePalette db i = (⟨404, .errorMsg (paletteNotFoundMsg i)⟩, db)) := by
  rcases db with ⟨P, L, ni, np, fl⟩
  cases hf
  constructor
  · intro h
    cases hfl : L.filter (fun p => p.id == i) with
    | nil => exact absurd hfl h
    | cons p t =>
      simp [deletePalette, DB.wherePaletteId, DB.delPaletteById, hfl]
  · intro hfl
    simp [deletePalette, DB.wherePaletteId, hfl]

/-- Witness for `delete_palette_contract` at the seeded database. -/
theorem delete_palette_contract_witness :
    deletePalette sampleDB 1 =
      (⟨200, .text (paletteRemovedMsg 1)⟩,
       { sampleDB with
           palettes := sampleDB.palettes.filter (fun p => !(p.id == 1)) }) :=
  (delete_palette_contract sampleDB 1 rfl).1 (by decide)

/-- Filtering for an id after all rows with that id were filtered away
yields nothing. -/
theorem filter_id_filter_not (L : List Palette) (i : Int) :
    (L.filter (fun p => !(p.id == i))).filter (fun p => p.id == i) = [] := by
  induction L with
  | nil => rfl
  | cons p t ih =>
    cases hb : p.id == i <;> simp [List.filter_cons, hb, ih]

/-- `filter_id_filter_not` for the projects table. -/
theorem filter_id_filter_not_proj (L : List Project) (i : Int) :
    (L.filter (fun p => !(p.id == i))).filter (fun p => p.id == i) = [] := by
  induction L with
  | nil => rfl
  | cons p t ih =>
    cases hb : p.id == i <;> simp [List.filter_cons, hb, ih]

/-- C5: deletion is idempotent with respect to final state, for both
DELETE routes: after a successful DELETE of an id, a GET of that id yields
404, and a second DELETE yields 404 (not 500) and leaves the state
unchanged. -/
theorem delete_idempotent (db : DB) (i : Int) (hf : db.failure = none) :
    ((deletePalette db i).1.status = 200 →
      getPaletteById (deletePalette db i).2 i =
        ⟨404, .errorMsg (paletteNotFoundMsg i)⟩ ∧
      deletePalette (deletePalette db i).2 i =
        (⟨404, .errorMsg (paletteNotFoundMsg i)⟩, (deletePalette db i).2))
  ∧ ((deleteProject db i).1.status = 200 →
      getProjectById (deleteProject db i).2 i =
        ⟨404, .errorMsgCap (projectNoneFoundMsg i)⟩ ∧
      deleteProject (deleteProject db i).2 i =
        (⟨404, .errorMsg (projectNotFoundMsg i)⟩, (deleteProject db i).2)) := by
  rcases db with ⟨P, L, ni, np, fl⟩
  cases hf
  constructor
  · intro h
    cases hfl : L.filter (fun p => p.id == i) with
    | nil =>
      exfalso
      simp [deletePalette, DB.wherePaletteId, hfl] at h
    | cons p t =>
      have hdb : deletePalette ⟨P, L, ni, np, none⟩ i =
          (⟨200, .text (paletteRemovedMsg i)⟩,
           ⟨P, L.filter (fun q => !(q.id == i)), ni, np, none⟩) := by
        simp [deletePalette, DB.wherePaletteId, DB.delPaletteById, hfl]
      rw [hdb]
      constructor
      · simp [getPaletteById, DB.wherePaletteId, filter_id_filter_not]
      · simp [deletePalette, DB.wherePaletteId, filter_id_filter_not]
  · intro h
    cases hfl : P.filter (fun p => p.id == i) with
    | nil =>
      exfalso
      simp [deleteProject, DB.whereProjectId, hfl] at h
    | cons p t =>
      have hdb : deleteProject ⟨P, L, ni, np, none⟩ i =
          (⟨200, .text (projectRemovedMsg i)⟩,
           ⟨P.filter (fun q => !(q.id == i)), L, ni, np, none⟩) := by
        simp [deleteProject, DB.whereProjectId, DB.delProjectById, hfl]
      rw [hdb]
      constructor
      · simp [getProjectById, DB.whereProjectId, filter_id_filter_not_proj]
      · simp [deleteProject, DB.whereProjectId, filter_id_filter_not_proj]

/-- Witness for `delete_idempotent` on both routes at the seeded database. -/
theorem delete_idempotent_witness :
    (getPaletteById (deletePalette sampleDB 1).2 1 =
        ⟨404, .errorMsg (paletteNotFoundMsg 1)⟩ ∧
      deletePalette (deletePalette sampleDB 1).2 1 =
        (⟨404, .errorMsg (paletteNotFoundMsg 1)⟩, (deletePalette sampleDB 1).2)) ∧
    (getProjectById (deleteProject sampleDB 1).2 1 =
        ⟨404, .errorMsgCap (projectNoneFoundMsg 1)⟩ ∧
      deleteProject (deleteProject sampleDB 1).2 1 =
        (⟨404, .errorMsg (projectNotFoundMsg 1)⟩, (deleteProject sampleDB 1).2)) :=
  ⟨(delete_idempotent sampleDB 1 rfl).1 (by decide),
   (delete_idempotent sampleDB 1 rfl).2 (by decide)⟩

/-- C6: GET /palettes/:id responds 200 with the single palette object, not
wrapped in an array or envelope, when a palette with that id exists, and
404 with the exact error body when none does. -/
theorem get_palette_by_id_contract (db : DB) (i : Int) (hf : db.failure = none) :
    (∀ (p : Palette) (rest : List Palette),
      db.palettes.filter (fun q => q.id == i) = p :: rest →
      getPaletteById db i = ⟨200, .singlePalette p⟩)
  ∧ (db.palettes.filter (fun q => q.id == i) = [] →
      getPaletteById db i = ⟨404, .errorMsg (paletteNotFoundMsg i)⟩) := by
  rcases db with ⟨P, L, ni, np, fl⟩
  cases hf
  constructor
  · intro p rest hfl
    simp [getPaletteById, DB.wherePaletteId, hfl]
  · intro hfl
    simp [getPaletteById, DB.wherePaletteId, hfl]

/-- Witness for `get_palette_by_id_contract` at the seeded database. -/
theorem get_palette_by_id_witness :
    getPaletteById sampleDB 1 = ⟨200, .singlePalette samplePalette⟩ :=
  (get_palette_by_id_contract sampleDB 1 rfl).1 samplePalette [] (by decide)

/-- C7: GET /palettes with a well-formed 6-hex-character color fragment
returns exactly the palettes in which some of the five color fields
case-insensitively contains the fragment; a malformed fragment yields 422
with the fixed message; no fragment yields all palettes. -/
theorem get_palettes_color_contract (db : DB) (hf : db.failure = none) :
    (∀ q : String, isValidColorQuery q = true →
      getPalettes (some q) db =
        ⟨200, .palettes (db.palettes.filter (fun p =>
          strContainsCI p.color_one q || strContainsCI p.color_two q ||
          strContainsCI p.color_three q || strContainsCI p.color_four q ||
          strContainsCI p.color_five q))⟩)
  ∧ (∀ q : String, isValidColorQuery q = false →
      getPalettes (some q) db = ⟨422, .errorMsg colorQueryErrMsg⟩)
  ∧ getPalettes none db = ⟨200, .palettes db.palettes⟩ := by
  refine ⟨?_, ?_, ?_⟩
  · intro q hq
    rcases db with ⟨P, L, ni, np, fl⟩
    cases hf
    simp only [getPalettes, hq, if_true, DB.selectPalettes]
    rfl
  · intro q hq
    simp [getPalettes, hq]
  · rcases db with ⟨P, L, ni, np, fl⟩
    cases hf
    simp [getPalettes, DB.selectPalettes]

/-- Witness for `get_palettes_color_contract` at the fragment FFFFFF. -/
theorem get_palettes_color_witness :
    getPalettes (some "FFFFFF") sampleDB =
      ⟨200, .palettes (sampleDB.palettes.filter (fun p =>
        strContainsCI p.color_one "FFFFFF" || strContainsCI p.color_two "FFFFFF" ||
        strContainsCI p.color_three "FFFFFF" || strContainsCI p.color_four "FFFFFF" ||
        strContainsCI p.color_five "FFFFFF"))⟩ :=
  (get_palettes_color_contract sampleDB rfl).1 "FFFFFF" (by decide)

/-- A body containing some property other than name never passes the PATCH
validation. -/
theorem validPatchBody_eq_false (body : List (String × String))
    (h : body.any (fun kv => !(kv.1 == "name")) = true) :
    validPatchBody body = false := by
  match body with
  | [] => simp at h
  | [(k, v)] =>
    simp only [List.any_cons, List.any_nil, Bool.or_false, Bool.not_eq_true'] at h
    simp [validPatchBody, h]
  | (a :: b :: t) => rfl

/-- C8: PATCH on an existing project or palette id with a body of exactly
one name property updates the name column of the matching rows and nothing
else, responding 200 with the id; a body containing any property other
than name yields 422 with the fixed message and leaves the state
unchanged; a missing target id yields 404. -/
theorem patch_name_contract :
    (∀ (db : DB) (i : Int) (v : String), db.failure = none →
      db.projects.filter (fun p => p.id == i) ≠ [] →
      patchProjectName db i [("name", v)] =
        (⟨200, .idBody i⟩,
         { db with projects := db.projects.map
                       (fun p => if p.id == i then { p with name := v } else p) }))
  ∧ (∀ (db : DB) (i : Int) (body : List (String × String)),
      body.any (fun kv => !(kv.1 == "name")) = true →
      patchProjectName db i body = (⟨422, .errorMsg patchErrMsg⟩, db))
  ∧ (∀ (db : DB) (i : Int) (v : String), db.failure = none →
      db.projects.filter (fun p => p.id == i) = [] →
      patchProjectName db i [("name", v)] =
        (⟨404, .errorMsg (projectNotFoundMsg i)⟩, db))
  ∧ (∀ (db : DB) (i : Int) (v : String), db.failure = none →
      db.palettes.filter (fun p => p.id == i) ≠ [] →
      patchPaletteName db i [("name", v)] =
        (⟨200, .idBody i⟩,
         { db with palettes := db.palettes.map
                       (fun p => if p.id == i then { p with name := v } else p) }))
  ∧ (∀ (db : DB) (i : Int) (body : List (String × String)),
      body.any (fun kv => !(kv.1 == "name")) = true →
      patchPaletteName db i body = (⟨422, .errorMsg patchErrMsg⟩, db))
  ∧ (∀ (db : DB) (i : Int) (v : String), db.failure = none →
      db.palettes.filter (fun p => p.id == i) = [] →
      patchPaletteName db i [("name", v)] =
        (⟨404, .errorMsg (paletteNotFoundMsg i)⟩, db)) := by
  refine ⟨?_, ?_, ?_, ?_, ?_, ?_⟩
  · intro db i v hf h
    rcases db with ⟨P, L, ni, np, fl⟩
    cases hf
    cases hfl : P.filter (fun p => p.id == i) with
    | nil => exact absurd hfl h
    | cons p t =>
      simp [patchProjectName, validPatchBody, DB.whereProjectId,
        DB.updateProjectName, hfl]
  · intro db i body h
    simp [patchProjectName, validPatchBody_eq_false body h]
  · intro db i v hf hfl
    rcases db with ⟨P, L, ni, np, fl⟩
    cases hf
    simp [patchProjectName, validPatchBody, DB.whereProjectId, hfl]
  · intro db i v hf h
    rcases db with ⟨P, L, ni, np, fl⟩
    cases hf
    cases hfl : L.filter (fun p => p.id == i) with
    | nil => exact absurd hfl h
    | cons p t =>
      simp [patchPaletteName, validPatchBody, DB.wherePaletteId,
        DB.updatePaletteName, hfl]
  · intro db i body h
    simp [patchPaletteName, validPatchBody_eq_false body h]
  · intro db i v hf hfl
    rcases db with ⟨P, L, ni, np, fl⟩
    cases hf
    simp [patchPaletteName, validPatchBody, DB.wherePaletteId, hfl]

/-- Witness for `patch_name_contract` at the seeded database. -/
theorem patch_name_contract_witness :
    patchProjectName sampleDB 1 [("name", "Updated Project Name")] =
      (⟨200, .idBody 1⟩,
       { sampleDB with projects := sampleDB.projects.map
                           (fun p => if p.id == 1 then { p with name := "Updated Project Name" } else p) }) :=
  patch_name_contract.1 sampleDB 1 "Updated Project Name" rfl (by decide)

/-- C9: whenever the query-builder call throws, every handler catches the
error and responds 500 with a body wrapping the underlying error, and no
other status is produced on that path. -/
theorem datastore_failure_responds_500 (db : DB) (e : String)
    (hf : db.failure = some e) :
    getProjects db = ⟨500, .errObj e⟩
  ∧ (∀ i : Int, getPaletteById db i = ⟨500, .errObj e⟩)
  ∧ (∀ (pathId : Int) (body : PaletteBody),
      bodyRequiredFields.find? (fun x => !hasField body x) = none →
      createPalette pathId body db = (⟨500, .errObj e⟩, db))
  ∧ (∀ body : ProjectBody, isFalsy body.name = false →
      createProject db body = (⟨500, .errObj e⟩, db))
  ∧ (∀ i : Int, deletePalette db i = (⟨500, .errObj e⟩, db))
  ∧ getPalettes none db = ⟨500, .errObj e⟩
  ∧ (∀ q : String, isValidColorQuery q = true →
      getPalettes (some q) db = ⟨500, .errObj e⟩)
  ∧ (∀ (i : Int) (v : String),
      patchProjectName db i [("name", v)] = (⟨500, .errObj e⟩, db))
  ∧ (∀ (i : Int) (v : String),
      patchPaletteName db i [("name", v)] = (⟨500, .errObj e⟩, db))
  ∧ (∀ i : Int, getProjectById db i = ⟨500, .errObj e⟩)
  ∧ (∀ i : Int, getProjectPalettes db i = ⟨500, .errObj e⟩)
  ∧ (∀ i : Int, deleteProject db i = (⟨500, .errObj e⟩, db)) := by
  rcases db with ⟨P, L, ni, np, fl⟩
  cases hf
  refine ⟨rfl, fun i => rfl, ?_, ?_, fun i => rfl, rfl, ?_, ?_, ?_,
    fun i => rfl, fun i => rfl, fun i => rfl⟩
  · intro pathId body hnone
    simp [createPalette, firstMissing_after_inject, hnone, DB.insertPalette]
  · intro body hb
    simp [createProject, hb, DB.insertProject]
  · intro q hq
    simp [getPalettes, hq, DB.selectPalettes]
  · intro i v
    simp [patchProjectName, validPatchBody, DB.whereProjectId]
  · intro i v
    simp [patchPaletteName, validPatchBody, DB.wherePaletteId]

/-- Witness for `datastore_failure_responds_500` at the faulted database. -/
theorem datastore_failure_witness :
    getProjects sampleFailDB = ⟨500, .errObj "connection refused"⟩ :=
  (datastore_failure_responds_500 sampleFailDB "connection refused" rfl).1

/-- Witness for `post_palette_projects_id_injected` at a concrete body
carrying a bogus `projects_id`. -/
theorem post_palette_projects_id_injected_witness :
    createPalette 1 { fullPaletteBody with projects_id := some 99 } sampleDB =
      createPalette 1 fullPaletteBody sampleDB ∧
    (createPalette 1 fullPaletteBody sampleDB).1 ≠
      ⟨422, .errorMsg (paletteMissingMsg "projects_id")⟩ :=
  ⟨(post_palette_projects_id_injected 1 fullPaletteBody sampleDB).1 (some 99),
   (post_palette_projects_id_injected 1 fullPaletteBody sampleDB).2⟩
